import Mathlib

/-!
Verification development for the TempCycleDMA firmware core
(files `tarefa1_temp.c` and `main.c`).

The C code is shallowly embedded:
* `float` / `double` values are modelled with exact rational arithmetic (`ℚ`);
  the declared C precision of the two floating declarations the spec talks
  about is recorded separately as a type tag (`CFloatType`).
* `absolute_time_t` timestamps are modelled as integers (microseconds);
  `get_absolute_time()` becomes an explicit `now` argument of each invocation,
  and `absolute_time_diff_us from to` is `to - from`.
* the DMA buffer `buffer_temp` is a function `ℕ → ℕ` giving the raw 12-bit
  sample at each index; it is written by the DMA engine (environment events)
  and read by the state machine.
* `total_amostras : uint32_t` is modelled as `ℕ`: it is reset to zero at every
  window start and grows by 10000 per completed block, so the values reached
  in any physically realizable 0.5-second window stay far below `2^32`.
* hardware register calls (`adc_run`, `dma_channel_configure`, ...) have no
  effect on the modelled state; the calls issued by one invocation are
  recorded as a list of `HwAction`s so that claims about them can be stated.
-/

namespace TempCycleDMA

/-- `#define BLOCO_AMOSTRAS 10000` (tarefa1_temp.c line 40). -/
def BLOCO_AMOSTRAS : ℕ := 10000

/-- `#define DURACAO_AMOSTRAGEM_US 500000` (tarefa1_temp.c line 41). -/
def DURACAO_AMOSTRAGEM_US : ℤ := 500000

/-- `convert_to_celsius` (tarefa1_temp.c lines 52-56), with the float
literals read as exact rationals:
`conv = 3.3 / (1 << 12)`, `voltage = raw * conv`,
result `27.0 - (voltage - 0.706) / 0.001721`. -/
def convert_to_celsius (raw : ℕ) : ℚ :=
  let conv : ℚ := (33 / 10) / (2 ^ 12)
  let voltage : ℚ := raw * conv
  27 - (voltage - 706 / 1000) / (1721 / 1000000)

/-- The two floating-point widths appearing in the C sources. -/
inductive CFloatType
  | float32
  | float64
deriving DecidableEq

/-- Declared C type of the accumulator `soma_temp`
(tarefa1_temp.c line 97: `static float soma_temp = 0.0f;`). -/
def soma_temp_ctype : CFloatType := CFloatType.float32

/-- Declared C return type of the per-sample converter
(tarefa1_temp.c line 52: `static float convert_to_celsius(uint16_t raw)`). -/
def convert_to_celsius_ctype : CFloatType := CFloatType.float32

/-- The state enum `estado_tarefa1_t` (tarefa1_temp.c lines 89-93). -/
inductive estado_tarefa1_t
  | ESTADO_PARADO
  | ESTADO_INICIANDO
  | ESTADO_AGUARDANDO_DMA
deriving DecidableEq

open estado_tarefa1_t

/-- Hardware register operations issued by the module (modelled as opaque
commands to the ADC / DMA peripherals). -/
inductive HwAction
  | adc_select_input (input : ℕ)
  | adc_fifo_drain
  | adc_run (running : Bool)
  | adc_fifo_setup
  | dma_channel_configure (count : ℕ)
deriving DecidableEq

/-- The hardware calls performed by `iniciar_dma_temp`
(tarefa1_temp.c lines 65-79), in program order. -/
def iniciar_dma_temp_actions : List HwAction :=
  [HwAction.adc_select_input 4, HwAction.adc_fifo_drain, HwAction.adc_run false,
   HwAction.adc_fifo_setup, HwAction.adc_run true,
   HwAction.dma_channel_configure BLOCO_AMOSTRAS]

/-- The mutable state owned by (or shared with) tarefa1_temp.c:
the static module variables (lines 95-99), the DMA buffer (line 43) and the
completion flag `dma_temp_done` (line 44, set by the IRQ handler). -/
structure T1State where
  estado_t1 : estado_tarefa1_t
  inicio_amostragem : ℤ
  soma_temp : ℚ
  total_amostras : ℕ
  media_temp : ℚ
  dma_temp_done : Bool
  buffer_temp : ℕ → ℕ

/-- Result of one invocation of `tarefa1_obter_media_temp`: the updated
module state, the C return value, and the hardware calls issued. -/
structure T1Result where
  state : T1State
  ret : Bool
  actions : List HwAction

/-- `tarefa1_obter_media_temp` (tarefa1_temp.c lines 101-135).
One invocation of the acquisition state machine; `now` is the value
`get_absolute_time()` would return during this invocation. -/
def tarefa1_obter_media_temp (s : T1State) (now : ℤ) : T1Result :=
  match s.estado_t1 with
  | ESTADO_PARADO =>
      { state := { s with soma_temp := 0, total_amostras := 0,
                          inicio_amostragem := now,
                          estado_t1 := ESTADO_INICIANDO },
        ret := false, actions := [] }
  | ESTADO_INICIANDO =>
      { state := { s with dma_temp_done := false,
                          estado_t1 := ESTADO_AGUARDANDO_DMA },
        ret := false, actions := iniciar_dma_temp_actions }
  | ESTADO_AGUARDANDO_DMA =>
      if s.dma_temp_done then
        let soma' : ℚ := s.soma_temp +
          ∑ i ∈ Finset.range BLOCO_AMOSTRAS, convert_to_celsius (s.buffer_temp i)
        let total' : ℕ := s.total_amostras + BLOCO_AMOSTRAS
        if now - s.inicio_amostragem ≥ DURACAO_AMOSTRAGEM_US then
          { state := { s with soma_temp := soma', total_amostras := total',
                              media_temp := soma' / (total' : ℚ),
                              estado_t1 := ESTADO_PARADO },
            ret := true, actions := [HwAction.adc_run false] }
        else
          { state := { s with soma_temp := soma', total_amostras := total',
                              estado_t1 := ESTADO_INICIANDO },
            ret := false, actions := [HwAction.adc_run false] }
      else
        { state := s, ret := false, actions := [] }

/-- `tarefa1_termina` (tarefa1_temp.c lines 137-139). -/
def tarefa1_termina (s : T1State) : ℚ :=
  s.media_temp

/-- Initial values of the static module state (C zero/explicit initializers:
`estado_t1 = ESTADO_PARADO`, `soma_temp = 0.0f`, `total_amostras = 0`,
`media_temp = 0.0f`, zero-initialized buffer and timestamp, and the
completion flag initially false). -/
def t1_init : T1State :=
  { estado_t1 := ESTADO_PARADO, inicio_amostragem := 0, soma_temp := 0,
    total_amostras := 0, media_temp := 0, dma_temp_done := false,
    buffer_temp := fun _ => 0 }

/-- Environment-visible events at the level of tarefa1_temp.c: an invocation
of the state machine at some time, the DMA-completion IRQ setting
`dma_temp_done` (irq_handlers.c), and the DMA engine rewriting the buffer. -/
inductive T1Event
  | call (now : ℤ)
  | irq
  | dma (buf : ℕ → ℕ)

/-- One event step; the `Bool` records whether this event was an invocation
that returned `true` (cycle finished). -/
def t1_step (e : T1Event) (s : T1State) : T1State × Bool :=
  match e with
  | T1Event.call now =>
      let r := tarefa1_obter_media_temp s now
      (r.state, r.ret)
  | T1Event.irq => ({ s with dma_temp_done := true }, false)
  | T1Event.dma buf => ({ s with buffer_temp := buf }, false)

/-- Run a list of events; the `Bool` records whether any invocation in the
list returned `true`. -/
def t1_run : List T1Event → T1State → T1State × Bool
  | [], s => (s, false)
  | e :: es, s =>
      let r := t1_step e s
      let rest := t1_run es r.1
      (rest.1, r.2 || rest.2)

/-!
Embedding of the cooperative scheduler level (main.c).

`tarefa3_analisa_tendencia` lives in tarefa3_tendencia.c, an external
collaborator of this core; its result type `tendencia_t` is modelled
abstractly as `ℤ` and the function itself is an arbitrary parameter
`analisa`.  The display (`tarefa2_exibir_oled`) and NeoPixel calls touch no
modelled state.
-/

/-- The globals of main.c that the five timer callbacks share, together with
each callback's `static` locals: `media` and `t` (lines 176-177),
`leitura_temp_concluida` (line 178), `ciclo_finalizado` (static in
`tarefa_1`, line 186), the four throttle counters (statics in
`tarefa_2`..`tarefa_5`) and `estado` (static in `tarefa_5`, line 262). -/
structure SysState where
  t1 : T1State
  media : ℚ
  t : ℤ
  leitura_temp_concluida : Bool
  ciclo_finalizado : Bool
  contador2 : ℕ
  contador3 : ℕ
  contador4 : ℕ
  contador5 : ℕ
  estado5 : Bool

/-- `tarefa_1` (main.c lines 184-203): drive the acquisition state machine
while no cycle has been flagged finished; on the tick after the flag was
set, latch the average into `media`, clear the flag, and open the gate. -/
def tarefa_1 (s : SysState) (now : ℤ) : SysState :=
  if !s.ciclo_finalizado then
    let r := tarefa1_obter_media_temp s.t1 now
    { s with t1 := r.state, ciclo_finalizado := r.ret }
  else
    let s1 := { s with media := tarefa1_termina s.t1, ciclo_finalizado := false }
    if !s1.leitura_temp_concluida then
      { s1 with leitura_temp_concluida := true }
    else
      s1

/-- `tarefa_2` (main.c lines 205-221): gate check, throttle `++contador < 3`,
payload `t = tarefa3_analisa_tendencia(media)`. -/
def tarefa_2 (analisa : ℚ → ℤ) (s : SysState) : SysState :=
  if !s.leitura_temp_concluida then s
  else if s.contador2 + 1 < 3 then { s with contador2 := s.contador2 + 1 }
  else { s with contador2 := 0, t := analisa s.media }

/-- `tarefa_3` (main.c lines 223-239): gate check, throttle, payload
`tarefa2_exibir_oled(media, t)` (external, no modelled state). -/
def tarefa_3 (s : SysState) : SysState :=
  if !s.leitura_temp_concluida then s
  else if s.contador3 + 1 < 3 then { s with contador3 := s.contador3 + 1 }
  else { s with contador3 := 0 }

/-- `tarefa_4` (main.c lines 241-257): gate check, throttle, payload
`tarefa4_matriz_cor_por_tendencia(t)` (external, no modelled state). -/
def tarefa_4 (s : SysState) : SysState :=
  if !s.leitura_temp_concluida then s
  else if s.contador4 + 1 < 3 then { s with contador4 := s.contador4 + 1 }
  else { s with contador4 := 0 }

/-- `tarefa_5` (main.c lines 258-283): gate check, throttle, payload toggling
`estado` when `media < 1.0f` (the NeoPixel writes touch no modelled state). -/
def tarefa_5 (s : SysState) : SysState :=
  if !s.leitura_temp_concluida then s
  else if s.contador5 + 1 < 3 then { s with contador5 := s.contador5 + 1 }
  else
    let s1 := { s with contador5 := 0 }
    if s1.media < 1 then { s1 with estado5 := !s1.estado5 } else s1

/-- System-level events: an invocation of one of the five timer callbacks
(the timers all fire every 500 ms; any interleaving is allowed here), the
DMA-completion IRQ, or the DMA engine rewriting the buffer. -/
inductive Event
  | tick1 (now : ℤ)
  | tick2
  | tick3
  | tick4
  | tick5
  | irq
  | dma (buf : ℕ → ℕ)

/-- One system-level event step. -/
def sys_step (analisa : ℚ → ℤ) (e : Event) (s : SysState) : SysState :=
  match e with
  | Event.tick1 now => tarefa_1 s now
  | Event.tick2 => tarefa_2 analisa s
  | Event.tick3 => tarefa_3 s
  | Event.tick4 => tarefa_4 s
  | Event.tick5 => tarefa_5 s
  | Event.irq => { s with t1 := { s.t1 with dma_temp_done := true } }
  | Event.dma buf => { s with t1 := { s.t1 with buffer_temp := buf } }

/-- Run a list of system-level events in order. -/
def sys_run (analisa : ℚ → ℤ) : List Event → SysState → SysState
  | [], s => s
  | e :: es, s => sys_run analisa es (sys_step analisa e s)

/-- Initial system state (main.c initializers: `leitura_temp_concluida =
false`, `media` zero-initialized, statics zero/false). -/
def sys_init : SysState :=
  { t1 := t1_init, media := 0, t := 0, leitura_temp_concluida := false,
    ciclo_finalizado := false, contador2 := 0, contador3 := 0, contador4 := 0,
    contador5 := 0, estado5 := false }

/-- The value of `leitura_temp_concluida` after each event of a run. -/
def gateTrace (analisa : ℚ → ℤ) : List Event → SysState → List Bool
  | [], _ => []
  | e :: es, s =>
      (sys_step analisa e s).leitura_temp_concluida ::
        gateTrace analisa es (sys_step analisa e s)

/-- Number of false-to-true transitions in a Boolean trace, given the value
preceding the trace. -/
def countFlips : Bool → List Bool → ℕ
  | _, [] => 0
  | prev, b :: rest => (if prev = false ∧ b = true then 1 else 0) + countFlips b rest

/-- The throttle update shared by `tarefa_2`..`tarefa_5` once the gate is
open (`if (++contador < 3) return true; contador = 0;` with divisor 3):
new counter value, and whether the payload executes on this invocation. -/
def contador_step (c : ℕ) : ℕ × Bool :=
  if c + 1 < 3 then (c + 1, false) else (0, true)

/-- Iterate `contador_step` over `n` gated-open invocations: final counter
value and the number of payload executions. -/
def contador_run : ℕ → ℕ → ℕ × ℕ
  | c, 0 => (c, 0)
  | c, Nat.succ n =>
      let r := contador_step c
      let rest := contador_run r.1 n
      (rest.1, (if r.2 then 1 else 0) + rest.2)

/-- An all-zero DMA buffer (concrete test environment). -/
def buf0 : ℕ → ℕ := fun _ => 0

/-- A concrete module state sitting in `ESTADO_AGUARDANDO_DMA` with the
completion flag raised and a window that started at time 0. -/
def t1_awaiting : T1State :=
  { estado_t1 := ESTADO_AGUARDANDO_DMA, inicio_amostragem := 0, soma_temp := 0,
    total_amostras := 0, media_temp := 0, dma_temp_done := true,
    buffer_temp := buf0 }

/-- The corresponding concrete system state. -/
def sys_awaiting : SysState :=
  { sys_init with t1 := t1_awaiting }

/-!  Theorems about the claims.  -/

/-- Closed form of the sensor transfer function:
`convert_to_celsius r = 27 + 706000/1721 - r * (103125/220288)`. -/
theorem convert_to_celsius_closed_form (r : ℕ) :
    convert_to_celsius r = 27 + 706000 / 1721 - (r : ℚ) * (103125 / 220288) := by
  unfold convert_to_celsius
  ring_nf

/-- C7: for all raw values in [0, 4095], `convert_to_celsius` is a pure
function of its argument (it is a Lean function, so determinism is by
construction) and is strictly decreasing: `r1 < r2` implies
`convert_to_celsius r1 > convert_to_celsius r2`. -/
theorem convert_to_celsius_strict_anti (r1 r2 : ℕ) (h1 : r1 < r2)
    (h2 : r2 ≤ 4095) :
    convert_to_celsius r1 > convert_to_celsius r2 := by
  have h : (r1 : ℚ) < (r2 : ℚ) := by exact_mod_cast h1
  rw [convert_to_celsius_closed_form, convert_to_celsius_closed_form]
  have hpos : (0 : ℚ) < 103125 / 220288 := by norm_num
  nlinarith [h, hpos]

/-- Witness for C7 at raw values 0 and 4095. -/
theorem convert_to_celsius_strict_anti_witness :
    (0 < 4095 ∧ 4095 ≤ 4095) ∧ convert_to_celsius 0 > convert_to_celsius 4095 :=
  ⟨by decide, convert_to_celsius_strict_anti 0 4095 (by decide) (by decide)⟩

/-- C2 counterexample: the claim says the accumulator `soma_temp` has type
float64 (double), but tarefa1_temp.c line 97 declares it
`static float soma_temp = 0.0f;`, i.e. single precision. -/
theorem soma_temp_not_float64 : soma_temp_ctype ≠ CFloatType.float64 := by
  decide

/-- C2 amended: the accumulator `soma_temp` is declared with the same
single-precision `float` type as the per-sample converted value — the
summation does NOT use a wider accumulator type. -/
theorem soma_temp_single_precision :
    soma_temp_ctype = CFloatType.float32 ∧
    soma_temp_ctype = convert_to_celsius_ctype :=
  ⟨rfl, rfl⟩

/-- C8: invoking `tarefa1_obter_media_temp` in `ESTADO_PARADO` (Idle) zeroes
`soma_temp` and `total_amostras`, records `inicio_amostragem = now`,
transitions to `ESTADO_INICIANDO` (StartingBlock), and returns false. -/
theorem tarefa1_parado_resets (s : T1State) (now : ℤ)
    (h : s.estado_t1 = ESTADO_PARADO) :
    (tarefa1_obter_media_temp s now).state.soma_temp = 0 ∧
    (tarefa1_obter_media_temp s now).state.total_amostras = 0 ∧
    (tarefa1_obter_media_temp s now).state.inicio_amostragem = now ∧
    (tarefa1_obter_media_temp s now).state.estado_t1 = ESTADO_INICIANDO ∧
    (tarefa1_obter_media_temp s now).ret = false := by
  simp [tarefa1_obter_media_temp, h]

/-- Witness for C8 at the initial state. -/
theorem tarefa1_parado_resets_witness :
    t1_init.estado_t1 = ESTADO_PARADO ∧
    ((tarefa1_obter_media_temp t1_init 7).state.soma_temp = 0 ∧
     (tarefa1_obter_media_temp t1_init 7).state.total_amostras = 0 ∧
     (tarefa1_obter_media_temp t1_init 7).state.inicio_amostragem = 7 ∧
     (tarefa1_obter_media_temp t1_init 7).state.estado_t1 = ESTADO_INICIANDO ∧
     (tarefa1_obter_media_temp t1_init 7).ret = false) :=
  ⟨rfl, tarefa1_parado_resets t1_init 7 rfl⟩

/-- C6: invoking `tarefa1_obter_media_temp` in `ESTADO_AGUARDANDO_DMA` while
`dma_temp_done` is still false is a no-op: the whole module state is
returned unchanged, no hardware call is issued, and the invocation reports
cycle-in-progress (false). -/
theorem tarefa1_awaiting_noop (s : T1State) (now : ℤ)
    (h1 : s.estado_t1 = ESTADO_AGUARDANDO_DMA) (h2 : s.dma_temp_done = false) :
    tarefa1_obter_media_temp s now = ⟨s, false, []⟩ := by
  simp [tarefa1_obter_media_temp, h1, h2]

/-- Witness for C6 at a concrete awaiting state with the flag down. -/
theorem tarefa1_awaiting_noop_witness :
    ({ t1_awaiting with dma_temp_done := false } : T1State).estado_t1 =
      ESTADO_AGUARDANDO_DMA ∧
    ({ t1_awaiting with dma_temp_done := false } : T1State).dma_temp_done = false ∧
    tarefa1_obter_media_temp { t1_awaiting with dma_temp_done := false } 3 =
      ⟨{ t1_awaiting with dma_temp_done := false }, false, []⟩ :=
  ⟨rfl, rfl, tarefa1_awaiting_noop _ 3 rfl rfl⟩

/-- C9: whenever an invocation of `tarefa1_obter_media_temp` reports cycle
finished (returns true), the updated `total_amostras` is at least
`BLOCO_AMOSTRAS` (hence strictly positive), and the latched average is the
division `soma_temp / total_amostras` — the divisor is never zero. -/
theorem tarefa1_finish_total_positive (s : T1State) (now : ℤ)
    (h : (tarefa1_obter_media_temp s now).ret = true) :
    BLOCO_AMOSTRAS ≤ (tarefa1_obter_media_temp s now).state.total_amostras ∧
    0 < (tarefa1_obter_media_temp s now).state.total_amostras ∧
    (tarefa1_obter_media_temp s now).state.media_temp =
      (tarefa1_obter_media_temp s now).state.soma_temp /
        ((tarefa1_obter_media_temp s now).state.total_amostras : ℚ) := by
  cases hs : s.estado_t1 with
  | ESTADO_PARADO => simp [tarefa1_obter_media_temp, hs] at h
  | ESTADO_INICIANDO => simp [tarefa1_obter_media_temp, hs] at h
  | ESTADO_AGUARDANDO_DMA =>
      by_cases hd : s.dma_temp_done
      · by_cases ht : now - s.inicio_amostragem ≥ DURACAO_AMOSTRAGEM_US
        · refine ⟨?_, ?_, ?_⟩ <;>
            simp [tarefa1_obter_media_temp, hs, hd, ht, BLOCO_AMOSTRAS]
        · simp [tarefa1_obter_media_temp, hs, hd, ht] at h
      · simp [tarefa1_obter_media_temp, hs, hd] at h

/-- Witness for C9 at a concrete completed-window state. -/
theorem tarefa1_finish_total_positive_witness :
    (tarefa1_obter_media_temp t1_awaiting 500000).ret = true ∧
    (BLOCO_AMOSTRAS ≤
       (tarefa1_obter_media_temp t1_awaiting 500000).state.total_amostras ∧
     0 < (tarefa1_obter_media_temp t1_awaiting 500000).state.total_amostras ∧
     (tarefa1_obter_media_temp t1_awaiting 500000).state.media_temp =
       (tarefa1_obter_media_temp t1_awaiting 500000).state.soma_temp /
         ((tarefa1_obter_media_temp t1_awaiting 500000).state.total_amostras : ℚ)) :=
  ⟨rfl, tarefa1_finish_total_positive t1_awaiting 500000 rfl⟩

/-- C1: invoking `tarefa1_obter_media_temp` in `ESTADO_AGUARDANDO_DMA` with
`dma_temp_done` true stops the ADC (`adc_run(false)` is the only hardware
call issued), adds the conversion of every one of the `BLOCO_AMOSTRAS`
buffer samples to `soma_temp`, increments `total_amostras` by
`BLOCO_AMOSTRAS`; then, if at least `DURACAO_AMOSTRAGEM_US` microseconds
elapsed since `inicio_amostragem`, it latches `media_temp = soma_temp /
total_amostras`, transitions to `ESTADO_PARADO` and returns true; otherwise
it transitions to `ESTADO_INICIANDO` and returns false, leaving `media_temp`
unchanged. -/
theorem tarefa1_dma_done_accumulates (s : T1State) (now : ℤ)
    (h1 : s.estado_t1 = ESTADO_AGUARDANDO_DMA) (h2 : s.dma_temp_done = true) :
    (tarefa1_obter_media_temp s now).actions = [HwAction.adc_run false] ∧
    (tarefa1_obter_media_temp s now).state.soma_temp =
      s.soma_temp +
        ∑ i ∈ Finset.range BLOCO_AMOSTRAS, convert_to_celsius (s.buffer_temp i) ∧
    (tarefa1_obter_media_temp s now).state.total_amostras =
      s.total_amostras + BLOCO_AMOSTRAS ∧
    (if now - s.inicio_amostragem ≥ DURACAO_AMOSTRAGEM_US then
       (tarefa1_obter_media_temp s now).state.media_temp =
         (tarefa1_obter_media_temp s now).state.soma_temp /
           ((tarefa1_obter_media_temp s now).state.total_amostras : ℚ) ∧
       (tarefa1_obter_media_temp s now).state.estado_t1 = ESTADO_PARADO ∧
       (tarefa1_obter_media_temp s now).ret = true
     else
       (tarefa1_obter_media_temp s now).state.estado_t1 = ESTADO_INICIANDO ∧
       (tarefa1_obter_media_temp s now).ret = false ∧
       (tarefa1_obter_media_temp s now).state.media_temp = s.media_temp) := by
  by_cases ht : now - s.inicio_amostragem ≥ DURACAO_AMOSTRAGEM_US <;>
    simp [tarefa1_obter_media_temp, h1, h2, ht]

/-- Witness for C1 at a concrete completed-window state. -/
theorem tarefa1_dma_done_accumulates_witness :
    t1_awaiting.estado_t1 = ESTADO_AGUARDANDO_DMA ∧
    t1_awaiting.dma_temp_done = true ∧
    ((tarefa1_obter_media_temp t1_awaiting 500000).actions =
       [HwAction.adc_run false] ∧
     (tarefa1_obter_media_temp t1_awaiting 500000).state.soma_temp =
       t1_awaiting.soma_temp +
         ∑ i ∈ Finset.range BLOCO_AMOSTRAS,
           convert_to_celsius (t1_awaiting.buffer_temp i) ∧
     (tarefa1_obter_media_temp t1_awaiting 500000).state.total_amostras =
       t1_awaiting.total_amostras + BLOCO_AMOSTRAS ∧
     (if (500000 : ℤ) - t1_awaiting.inicio_amostragem ≥ DURACAO_AMOSTRAGEM_US then
        (tarefa1_obter_media_temp t1_awaiting 500000).state.media_temp =
          (tarefa1_obter_media_temp t1_awaiting 500000).state.soma_temp /
            ((tarefa1_obter_media_temp t1_awaiting 500000).state.total_amostras : ℚ) ∧
        (tarefa1_obter_media_temp t1_awaiting 500000).state.estado_t1 =
          ESTADO_PARADO ∧
        (tarefa1_obter_media_temp t1_awaiting 500000).ret = true
      else
        (tarefa1_obter_media_temp t1_awaiting 500000).state.estado_t1 =
          ESTADO_INICIANDO ∧
        (tarefa1_obter_media_temp t1_awaiting 500000).ret = false ∧
        (tarefa1_obter_media_temp t1_awaiting 500000).state.media_temp =
          t1_awaiting.media_temp)) :=
  ⟨rfl, rfl, tarefa1_dma_done_accumulates t1_awaiting 500000 rfl rfl⟩

/-- An invocation that reports cycle-in-progress leaves `media_temp`
unchanged (helper for C10). -/
theorem tarefa1_ret_false_media_unchanged (s : T1State) (now : ℤ)
    (h : (tarefa1_obter_media_temp s now).ret = false) :
    (tarefa1_obter_media_temp s now).state.media_temp = s.media_temp := by
  cases hs : s.estado_t1 with
  | ESTADO_PARADO => simp [tarefa1_obter_media_temp, hs]
  | ESTADO_INICIANDO => simp [tarefa1_obter_media_temp, hs]
  | ESTADO_AGUARDANDO_DMA =>
      by_cases hd : s.dma_temp_done
      · by_cases ht : now - s.inicio_amostragem ≥ DURACAO_AMOSTRAGEM_US
        · simp [tarefa1_obter_media_temp, hs, hd, ht] at h
        · simp [tarefa1_obter_media_temp, hs, hd, ht]
      · simp [tarefa1_obter_media_temp, hs, hd]

/-- Runs in which no invocation reported cycle finished leave `media_temp`
unchanged (helper for C10). -/
theorem t1_run_media_unchanged (es : List T1Event) (s : T1State)
    (h : (t1_run es s).2 = false) :
    (t1_run es s).1.media_temp = s.media_temp := by
  induction es generalizing s with
  | nil => rfl
  | cons e es ih =>
      simp only [t1_run, Bool.or_eq_false_iff] at h ⊢
      rw [ih _ h.2]
      cases e with
      | call now =>
          exact tarefa1_ret_false_media_unchanged s now (by simpa [t1_step] using h.1)
      | irq => rfl
      | dma buf => rfl

/-- C10: as long as no invocation of the state machine has reported cycle
finished, `tarefa1_termina()` returns exactly 0: `media_temp` starts at 0
and is only written by the cycle-completion branch. -/
theorem media_temp_zero_before_first_cycle (es : List T1Event)
    (h : (t1_run es t1_init).2 = false) :
    tarefa1_termina (t1_run es t1_init).1 = 0 := by
  have hm := t1_run_media_unchanged es t1_init h
  simpa [tarefa1_termina, t1_init] using hm

/-- Witness for C10: one idle-state invocation plus an IRQ complete no
cycle, and the reported average is 0. -/
theorem media_temp_zero_before_first_cycle_witness :
    (t1_run [T1Event.call 0, T1Event.irq] t1_init).2 = false ∧
    tarefa1_termina (t1_run [T1Event.call 0, T1Event.irq] t1_init).1 = 0 :=
  ⟨rfl, media_temp_zero_before_first_cycle _ rfl⟩

/-- C3 counterexample: at the very tick on which the state machine reports
cycle finished (`ret = true`), `tarefa_1` does NOT latch the averaged value
into `media` (it remains 0, while the freshly computed average is the
nonzero `752467/1721 ≈ 437.2` for an all-zero buffer) and does NOT open
`leitura_temp_concluida`; it only records the finished flag.  The latch and
the gate opening happen one base tick later, contradicting the claim that
they happen on that same tick. -/
theorem tarefa_1_no_latch_on_finish_tick :
    (tarefa1_obter_media_temp sys_awaiting.t1 500000).ret = true ∧
    (tarefa_1 sys_awaiting 500000).media = 0 ∧
    (tarefa1_obter_media_temp sys_awaiting.t1 500000).state.media_temp =
      752467 / 1721 ∧
    (tarefa_1 sys_awaiting 500000).media ≠
      (tarefa1_obter_media_temp sys_awaiting.t1 500000).state.media_temp ∧
    (tarefa_1 sys_awaiting 500000).leitura_temp_concluida = false ∧
    (tarefa_1 sys_awaiting 500000).ciclo_finalizado = true := by
  have havg : (tarefa1_obter_media_temp sys_awaiting.t1 500000).state.media_temp =
      752467 / 1721 := by
    simp [tarefa1_obter_media_temp, sys_awaiting, t1_awaiting, buf0,
          Finset.sum_const, convert_to_celsius, BLOCO_AMOSTRAS,
          DURACAO_AMOSTRAGEM_US]
    norm_num
  refine ⟨rfl, rfl, havg, ?_, rfl, rfl⟩
  rw [havg]
  have hm0 : (tarefa_1 sys_awaiting 500000).media = 0 := rfl
  rw [hm0]
  norm_num

/-- C3 amended: when the state machine reports cycle finished at tick N, the
acquisition task `tarefa_1` only records the flag at tick N (leaving `media`
and the gate untouched); at tick N+1 it latches `media =
tarefa1_termina()` (the value the machine stored in `media_temp`), opens
`leitura_temp_concluida`, and clears the flag. -/
theorem tarefa_1_latch_next_tick (s : SysState) (now now2 : ℤ)
    (h0 : s.ciclo_finalizado = false)
    (h1 : (tarefa1_obter_media_temp s.t1 now).ret = true) :
    (tarefa_1 s now).media = s.media ∧
    (tarefa_1 s now).leitura_temp_concluida = s.leitura_temp_concluida ∧
    (tarefa_1 s now).ciclo_finalizado = true ∧
    (tarefa_1 (tarefa_1 s now) now2).media =
      tarefa1_termina (tarefa_1 s now).t1 ∧
    (tarefa_1 (tarefa_1 s now) now2).leitura_temp_concluida = true ∧
    (tarefa_1 (tarefa_1 s now) now2).ciclo_finalizado = false := by
  have step1 : tarefa_1 s now =
      { s with t1 := (tarefa1_obter_media_temp s.t1 now).state,
               ciclo_finalizado := true } := by
    simp [tarefa_1, h0, h1]
  rw [step1]
  refine ⟨rfl, rfl, rfl, ?_, ?_, ?_⟩ <;>
    cases hg : s.leitura_temp_concluida <;>
      simp [tarefa_1, tarefa1_termina, hg]

/-- Witness for the amended C3 at a concrete completed-window state. -/
theorem tarefa_1_latch_next_tick_witness :
    sys_awaiting.ciclo_finalizado = false ∧
    (tarefa1_obter_media_temp sys_awaiting.t1 500000).ret = true ∧
    ((tarefa_1 sys_awaiting 500000).media = sys_awaiting.media ∧
     (tarefa_1 sys_awaiting 500000).leitura_temp_concluida =
       sys_awaiting.leitura_temp_concluida ∧
     (tarefa_1 sys_awaiting 500000).ciclo_finalizado = true ∧
     (tarefa_1 (tarefa_1 sys_awaiting 500000) 500001).media =
       tarefa1_termina (tarefa_1 sys_awaiting 500000).t1 ∧
     (tarefa_1 (tarefa_1 sys_awaiting 500000) 500001).leitura_temp_concluida =
       true ∧
     (tarefa_1 (tarefa_1 sys_awaiting 500000) 500001).ciclo_finalizado = false) :=
  ⟨rfl, rfl, tarefa_1_latch_next_tick sys_awaiting 500000 500001 rfl rfl⟩

/-- No system event ever clears an open gate (helper for C4). -/
theorem sys_step_gate_mono (analisa : ℚ → ℤ) (e : Event) (s : SysState)
    (h : s.leitura_temp_concluida = true) :
    (sys_step analisa e s).leitura_temp_concluida = true := by
  cases e with
  | tick1 now =>
      cases hc : s.ciclo_finalizado <;> simp [sys_step, tarefa_1, hc, h]
  | tick2 =>
      by_cases h2 : s.contador2 + 1 < 3 <;> simp [sys_step, tarefa_2, h, h2]
  | tick3 =>
      by_cases h2 : s.contador3 + 1 < 3 <;> simp [sys_step, tarefa_3, h, h2]
  | tick4 =>
      by_cases h2 : s.contador4 + 1 < 3 <;> simp [sys_step, tarefa_4, h, h2]
  | tick5 =>
      by_cases h2 : s.contador5 + 1 < 3
      · simp [sys_step, tarefa_5, h, h2]
      · by_cases hm : s.media < 1 <;> simp [sys_step, tarefa_5, h, h2, hm]
  | irq => simp [sys_step, h]
  | dma buf => simp [sys_step, h]

/-- Once the gate is open it stays open across any run (helper for C4). -/
theorem sys_run_gate_mono (analisa : ℚ → ℤ) (es : List Event) (s : SysState)
    (h : s.leitura_temp_concluida = true) :
    (sys_run analisa es s).leitura_temp_concluida = true := by
  induction es generalizing s with
  | nil => exact h
  | cons e es ih => exact ih _ (sys_step_gate_mono analisa e s h)

/-- A run starting with the gate open produces no false-to-true flip
(helper for C4). -/
theorem countFlips_gateTrace_zero (analisa : ℚ → ℤ) (es : List Event)
    (s : SysState) (h : s.leitura_temp_concluida = true) :
    countFlips s.leitura_temp_concluida (gateTrace analisa es s) = 0 := by
  induction es generalizing s with
  | nil => rfl
  | cons e es ih =>
      have hs' := sys_step_gate_mono analisa e s h
      simp only [gateTrace, countFlips, h, hs']
      simp only [Bool.true_eq_false, false_and, if_false, Nat.zero_add]
      have := ih (sys_step analisa e s) hs'
      rwa [hs'] at this

/-- Any run flips the gate from false to true at most once (helper for C4). -/
theorem countFlips_gateTrace_le_one (analisa : ℚ → ℤ) (es : List Event)
    (s : SysState) :
    countFlips s.leitura_temp_concluida (gateTrace analisa es s) ≤ 1 := by
  induction es generalizing s with
  | nil => simp [gateTrace, countFlips]
  | cons e es ih =>
      cases hg : s.leitura_temp_concluida with
      | true =>
          have := countFlips_gateTrace_zero analisa (e :: es) s hg
          rw [hg] at this
          omega
      | false =>
          cases hb : (sys_step analisa e s).leitura_temp_concluida with
          | true =>
              simp only [gateTrace, countFlips, hg, hb, and_self, if_true]
              have := countFlips_gateTrace_zero analisa es (sys_step analisa e s) hb
              rw [hb] at this
              omega
          | false =>
              simp only [gateTrace, countFlips, hg, hb, Bool.false_eq_true,
                         and_false, if_false, Nat.zero_add]
              have := ih (sys_step analisa e s)
              rwa [hb] at this

/-- C4: the readiness gate `leitura_temp_concluida` is one-way: over any
sequence of system events (task callbacks in any interleaving, IRQs, DMA
writes), if the gate is open it stays open, and the gate flips from false
to true at most once along any run. -/
theorem leitura_temp_concluida_one_way (analisa : ℚ → ℤ) (es : List Event)
    (s : SysState) :
    (s.leitura_temp_concluida = true →
       (sys_run analisa es s).leitura_temp_concluida = true) ∧
    countFlips s.leitura_temp_concluida (gateTrace analisa es s) ≤ 1 :=
  ⟨sys_run_gate_mono analisa es s, countFlips_gateTrace_le_one analisa es s⟩

/-- Witness for C4 with an open gate and one downstream tick. -/
theorem leitura_temp_concluida_one_way_witness :
    ({ sys_init with leitura_temp_concluida := true } : SysState).leitura_temp_concluida = true ∧
    (sys_run (fun _ => 0) [Event.tick2]
        { sys_init with leitura_temp_concluida := true }).leitura_temp_concluida = true ∧
    countFlips ({ sys_init with leitura_temp_concluida := true } : SysState).leitura_temp_concluida
      (gateTrace (fun _ => 0) [Event.tick2]
        { sys_init with leitura_temp_concluida := true }) ≤ 1 :=
  ⟨rfl, (leitura_temp_concluida_one_way (fun _ => 0) [Event.tick2] _).1 rfl,
    (leitura_temp_concluida_one_way (fun _ => 0) [Event.tick2] _).2⟩

/-- C5 counterexample: the counter value 1 is reached after a single
gated-open invocation from the initial counter 0; across the next three
gated-open invocations the payload executes exactly once, but the counter
after those three invocations is 1, not 0 — refuting "the counter after
those K invocations equals 0" for arbitrary windows of K consecutive
gated-open invocations. -/
theorem throttle_counter_not_zero_after_three :
    (contador_run 0 1).1 = 1 ∧
    (contador_run 1 3).2 = 1 ∧
    (contador_run 1 3).1 = 1 ∧ (1 : ℕ) ≠ 0 := by
  decide

/-- C5 amended: for the divisor-3 throttle shared by `tarefa_2`..`tarefa_5`:
across any 3 consecutive gated-open invocations the payload executes
exactly once and the counter returns to its starting value (which is 0 when
the window starts at task start-up, so the counter after those 3
invocations is then 0); the counter stays in [0, 3); the counter wraps to 0
exactly on the invocation where the payload executes; `tarefa_2` and
`tarefa_5` step their counters exactly this way when the gate is open, and
are no-ops while the gate is closed. -/
theorem throttle_divisor_three (c : ℕ) (h : c < 3) :
    (contador_run c 3).2 = 1 ∧
    (contador_run c 3).1 = c ∧
    (contador_run 0 3).1 = 0 ∧
    ((contador_step c).2 = true ↔ (contador_step c).1 = 0) ∧
    (contador_step c).1 < 3 ∧
    (∀ (analisa : ℚ → ℤ) (s : SysState),
        s.leitura_temp_concluida = true → s.contador2 = c →
        (tarefa_2 analisa s).contador2 = (contador_step c).1) ∧
    (∀ s : SysState,
        s.leitura_temp_concluida = true → s.contador5 = c →
        (tarefa_5 s).contador5 = (contador_step c).1) ∧
    (∀ (analisa : ℚ → ℤ) (s : SysState),
        s.leitura_temp_concluida = false →
        tarefa_2 analisa s = s ∧ tarefa_5 s = s) := by
  refine ⟨?_, ?_, ?_, ?_, ?_, ?_, ?_, ?_⟩
  · interval_cases c <;> decide
  · interval_cases c <;> decide
  · decide
  · interval_cases c <;> decide
  · interval_cases c <;> decide
  · intro analisa s hg hc
    by_cases h3 : c + 1 < 3 <;>
      simp [tarefa_2, contador_step, hg, hc, h3]
  · intro s hg hc
    by_cases h3 : c + 1 < 3
    · simp [tarefa_5, contador_step, hg, hc, h3]
    · by_cases hm : s.media < 1 <;>
        simp [tarefa_5, contador_step, hg, hc, h3, hm]
  · intro analisa s hg
    exact ⟨by simp [tarefa_2, hg], by simp [tarefa_5, hg]⟩

/-- Witness for the amended C5 at starting counter 0. -/
theorem throttle_divisor_three_witness :
    0 < 3 ∧
    ((contador_run 0 3).2 = 1 ∧
     (contador_run 0 3).1 = 0 ∧
     (contador_run 0 3).1 = 0 ∧
     ((contador_step 0).2 = true ↔ (contador_step 0).1 = 0) ∧
     (contador_step 0).1 < 3 ∧
     (∀ (analisa : ℚ → ℤ) (s : SysState),
         s.leitura_temp_concluida = true → s.contador2 = 0 →
         (tarefa_2 analisa s).contador2 = (contador_step 0).1) ∧
     (∀ s : SysState,
         s.leitura_temp_concluida = true → s.contador5 = 0 →
         (tarefa_5 s).contador5 = (contador_step 0).1) ∧
     (∀ (analisa : ℚ → ℤ) (s : SysState),
         s.leitura_temp_concluida = false →
         tarefa_2 analisa s = s ∧ tarefa_5 s = s)) :=
  ⟨by decide, throttle_divisor_three 0 (by decide)⟩

end TempCycleDMA
